import Mathlib

/-!
Verification of the PainelInovatus monitoring core (src/monitor.py and
src/app.py).

The module-level mutable state of monitor.py (history, timestamps,
offline_time, oscillation_detected, lines 64-67) is embedded as a
`MonitorState` record over an abstract endpoint type `E` (the keys of
the SITES dict).  `get_status_data` (lines 95-149) is embedded as a pure
update step: the threaded probe fan-out of lines 100-105 is abstracted
into the per-cycle outcome map it produces, and the loop over
`status_dict.items()` becomes a fold over the site list guarded by the
map.  `check_site`, `ensure_started` and app.py's `_get_current_data`
are embedded separately below.
-/

namespace PainelInovatus

/-- monitor.py line 21: bound on the rolling history kept for charts. -/
def MAX_HISTORY_LEN : Nat := 100

/-- monitor.py line 22: seconds between verification cycles. -/
def CHECK_INTERVAL : Nat := 5

/-- Result of one HTTP probe attempt: a response carrying its status
code, or one of the exception outcomes (connection failure / timeout)
that the except-branch of monitor.py lines 82-83 catches. -/
inductive ProbeResult where
  | response (status_code : Nat)
  | transportError
  | timeout
deriving DecidableEq

/-- monitor.py lines 77-83 (check_site): returns (nome, 1) exactly when
the request produced a response with status code 200, and (nome, 0) on
any other status code or on any caught exception.  The function is
total: the except-branch returns normally, so no error reaches the
caller and there is no retry. -/
def check_site (nome : String) (r : ProbeResult) : String × Nat :=
  match r with
  | ProbeResult.response c => (nome, if c = 200 then 1 else 0)
  | ProbeResult.transportError => (nome, 0)
  | ProbeResult.timeout => (nome, 0)

/-- The case analysis of monitor.py lines 86-92 on the last one or two
samples, phrased on the reversed buffer: the head of the reversal is
data[-1] and the second element is data[-2]. -/
def statusOfRev : List Nat → String
  | [] => "red"
  | [lastS] => if lastS = 1 then "green" else "red"
  | lastS :: prevS :: _ =>
      if lastS ≠ prevS then "yellow"
      else if lastS = 1 then "green" else "red"

/-- monitor.py lines 86-92 (get_status_color), as a function of the
endpoint's history buffer: with fewer than two samples, green iff the
buffer is nonempty and its last sample is 1, otherwise red; with two or
more, yellow when the last two differ, else green iff the last is 1. -/
def get_status_color (data : List Nat) : String :=
  statusOfRev data.reverse

/-- The slice of the module state owned by one endpoint: its entries in
history (line 64), offline_time (line 66) and oscillation_detected
(line 67). -/
structure EndpointState where
  history : List Nat
  offline_time : Nat
  oscillation_detected : Bool
deriving DecidableEq

/-- monitor.py lines 108-109 and 116-117: drop the oldest element when
the buffer has reached MAX_HISTORY_LEN (list.pop(0)). -/
def popIfFull (xs : List α) : List α :=
  if xs.length ≥ MAX_HISTORY_LEN then xs.tail else xs

/-- One insert into a rolling buffer: the pop-then-append of
monitor.py lines 108-110 and 116-120. -/
def pushSample (buf : List Nat) (x : Nat) : List Nat :=
  popIfFull buf ++ [x]

/-- monitor.py lines 116-135: the state change one delivered outcome
causes for its endpoint.  prev is read after the eviction and before
the append, exactly as on line 119 (the eviction removes the front, so
prev is still the most recent sample); the counter resets on a nonzero
status and grows by CHECK_INTERVAL on status 0 (lines 122-126); the
oscillation flag is set iff a previous sample exists and differs from
the current one (lines 128-135). -/
def updateEndpointState (es : EndpointState) (status : Nat) : EndpointState :=
  { history := pushSample es.history status
  , offline_time := if status = 0 then es.offline_time + CHECK_INTERVAL else 0
  , oscillation_detected :=
      match (popIfFull es.history).getLast? with
      | some prev => decide (prev ≠ status)
      | none => false }

/-- The module-level mutable state of monitor.py lines 64-67, over an
abstract endpoint type E standing for the keys of SITES. -/
structure MonitorState (E : Type) where
  history : E → List Nat
  timestamps : List String
  offline_time : E → Nat
  oscillation_detected : E → Bool

/-- monitor.py lines 64-67: empty buffers, empty time index, zero
counters, false flags. -/
def initMonitorState (E : Type) : MonitorState E :=
  { history := fun _ => []
  , timestamps := []
  , offline_time := fun _ => 0
  , oscillation_detected := fun _ => false }

/-- Read one endpoint's slice of the module state. -/
def stateAt {E : Type} (st : MonitorState E) (e : E) : EndpointState :=
  { history := st.history e
  , offline_time := st.offline_time e
  , oscillation_detected := st.oscillation_detected e }

/-- Write one endpoint's slice of the module state, leaving every other
endpoint and the shared time index untouched. -/
def setStateAt {E : Type} [DecidableEq E] (st : MonitorState E) (nome : E)
    (es : EndpointState) : MonitorState E :=
  { history := fun x => if x = nome then es.history else st.history x
  , timestamps := st.timestamps
  , offline_time := fun x => if x = nome then es.offline_time else st.offline_time x
  , oscillation_detected :=
      fun x => if x = nome then es.oscillation_detected else st.oscillation_detected x }

/-- One report entry (monitor.py lines 131-133 and 139-141): tempo is
the downtime value of a Queda entry and none for the "-" of an
Oscilação entry. -/
structure Event (E : Type) where
  data : String
  nome : E
  tempo : Option Nat
  tipo : String
deriving DecidableEq

/-- The dict returned by get_status_data, monitor.py lines 143-149. -/
structure Snapshot (E : Type) where
  timestamps : List String
  data : List (E × List Nat)
  status_colors : List (E × String)
  quedas : List (Event E)
  oscilacoes : List (Event E)
deriving DecidableEq

/-- Accumulator of the per-endpoint loop of monitor.py lines 112-141:
the evolving module state and the two report lists. -/
structure CycleAcc (E : Type) where
  state : MonitorState E
  quedas : List (Event E)
  oscilacoes : List (Event E)

/-- Body of the loop over status_dict.items(), monitor.py lines
115-141, for one endpoint whose outcome was delivered: update the
endpoint's slice, then append an Oscilação entry when the flag was set
(lines 129-133) and a Queda entry when the updated counter is at least
5 (lines 137-141). -/
def processEndpoint {E : Type} [DecidableEq E] (current_time : String)
    (acc : CycleAcc E) (nome : E) (status : Nat) : CycleAcc E :=
  let es := updateEndpointState (stateAt acc.state nome) status
  { state := setStateAt acc.state nome es
  , quedas := acc.quedas ++
      (if 5 ≤ es.offline_time then
        [⟨current_time, nome, some es.offline_time, "Queda"⟩] else [])
  , oscilacoes := acc.oscilacoes ++
      (if es.oscillation_detected then
        [⟨current_time, nome, none, "Oscilação"⟩] else []) }

/-- One iteration of the loop for one site: an endpoint present in the
cycle's outcome map is processed; one that is missing is simply never
visited by the iteration over status_dict.items(). -/
def cycleStep {E : Type} [DecidableEq E] (sd : E → Option Nat) (t : String)
    (acc : CycleAcc E) (nome : E) : CycleAcc E :=
  match sd nome with
  | some status => processEndpoint t acc nome status
  | none => acc

/-- monitor.py lines 107-141: evict-and-append the shared timestamp
once (lines 108-110), then run the per-endpoint loop over the cycle's
outcome map. -/
def runUpdate {E : Type} [DecidableEq E] (sites : List E) (sd : E → Option Nat)
    (t : String) (st : MonitorState E) : CycleAcc E :=
  sites.foldl (cycleStep sd t)
    { state := { st with timestamps := popIfFull st.timestamps ++ [t] }
    , quedas := []
    , oscilacoes := [] }

/-- monitor.py lines 95-149: the pure core of one verification cycle.
The probe fan-out of lines 100-105 is abstracted into the outcome map
sd it produces; the returned Snapshot is the dict of lines 143-148
assembled from the updated state, and the second component is the
updated module state itself. -/
def get_status_data {E : Type} [DecidableEq E] (sites : List E)
    (sd : E → Option Nat) (current_time : String) (st : MonitorState E) :
    Snapshot E × MonitorState E :=
  ( { timestamps := (runUpdate sites sd current_time st).state.timestamps
    , data := sites.map
        (fun n => (n, (runUpdate sites sd current_time st).state.history n))
    , status_colors := sites.map
        (fun n => (n, get_status_color ((runUpdate sites sd current_time st).state.history n)))
    , quedas := (runUpdate sites sd current_time st).quedas
    , oscilacoes := (runUpdate sites sd current_time st).oscilacoes }
  , (runUpdate sites sd current_time st).state )

/-- Iterated cycles: the pure trace of the background loop body of
monitor.py lines 155-164 over a list of (outcome map, timestamp)
rounds, collecting each cycle's snapshot and post-state. -/
def runCycles {E : Type} [DecidableEq E] (sites : List E)
    (rounds : List ((E → Option Nat) × String)) (st : MonitorState E) :
    List (Snapshot E × MonitorState E) :=
  match rounds with
  | [] => []
  | (sd, t) :: rest =>
      (get_status_data sites sd t st) ::
        runCycles sites rest (get_status_data sites sd t st).2

/-- k consecutive down samples applied to one endpoint's state. -/
def downRun : Nat → EndpointState → EndpointState
  | 0, es => es
  | k + 1, es => downRun k (updateEndpointState es 0)

/-- The Queda entry that the cycle with outcome map sd and timestamp t
contributes for one endpoint, in terms of the pre-loop state st0
(monitor.py lines 137-141). -/
def quedaOf {E : Type} (sd : E → Option Nat) (t : String) (st0 : MonitorState E)
    (nome : E) : Option (Event E) :=
  match sd nome with
  | none => none
  | some status =>
      let es := updateEndpointState (stateAt st0 nome) status
      if 5 ≤ es.offline_time then some ⟨t, nome, some es.offline_time, "Queda"⟩
      else none

/-- The Oscilação entry contributed for one endpoint, in terms of the
pre-loop state st0 (monitor.py lines 128-135). -/
def oscOf {E : Type} (sd : E → Option Nat) (t : String) (st0 : MonitorState E)
    (nome : E) : Option (Event E) :=
  match sd nome with
  | none => none
  | some status =>
      let es := updateEndpointState (stateAt st0 nome) status
      if es.oscillation_detected then some ⟨t, nome, none, "Oscilação"⟩
      else none

/-- Outcome maps and timestamps for the seven-cycle scenario:
up, up, down, down, down, down, up with period 5s. -/
def scenarioRounds : List ((String → Option Nat) × String) :=
  [ (fun _ => some 1, "t1"), (fun _ => some 1, "t2"), (fun _ => some 0, "t3")
  , (fun _ => some 0, "t4"), (fun _ => some 0, "t5"), (fun _ => some 0, "t6")
  , (fun _ => some 1, "t7") ]

/-- Trace of the scenario on a single endpoint named "A", started from
the empty initial state. -/
def scenarioRun : List (Snapshot String × MonitorState String) :=
  runCycles ["A"] scenarioRounds (initMonitorState String)

/-- The lifecycle globals of monitor.py: the one-shot flag
_thread_started (line 72) and, for the verification, a count of
monitor-loop threads that have been started. -/
structure LifecycleState where
  thread_started : Bool
  monitor_threads : Nat
deriving DecidableEq

/-- monitor.py lines 71-72: flag clear, no loop thread running. -/
def initLifecycleState : LifecycleState :=
  { thread_started := false, monitor_threads := 0 }

/-- monitor.py lines 167-174 (ensure_started) executed with no
interleaving: test the flag and, when it is clear, start a loop thread
and set the flag. -/
def ensure_started (s : LifecycleState) : LifecycleState :=
  if s.thread_started then s
  else { thread_started := true, monitor_threads := s.monitor_threads + 1 }

/-- Progress of one in-flight ensure_started invocation: about to test
the flag (line 170), having observed it clear and being about to run
the start-and-set block (lines 171-173), or done. -/
inductive InvPhase where
  | ready
  | willStart
  | finished
deriving DecidableEq

/-- One atomic step of an in-flight invocation.  The flag test and the
start-and-set block are separate steps because no lock encloses them in
monitor.py lines 170-173, so steps of another invocation can fall
between them. -/
def invStep (g : LifecycleState) (p : InvPhase) : LifecycleState × InvPhase :=
  match p with
  | InvPhase.ready =>
      if g.thread_started then (g, InvPhase.finished) else (g, InvPhase.willStart)
  | InvPhase.willStart =>
      ({ thread_started := true, monitor_threads := g.monitor_threads + 1 },
        InvPhase.finished)
  | InvPhase.finished => (g, InvPhase.finished)

/-- Two concurrent invocations of ensure_started driven by a schedule:
a false entry schedules one step of the first caller, a true entry one
step of the second. -/
def runTwo (sched : List Bool) : LifecycleState × InvPhase × InvPhase :=
  sched.foldl
    (fun acc b =>
      if b then
        ((invStep acc.1 acc.2.2).1, acc.2.1, (invStep acc.1 acc.2.2).2)
      else
        ((invStep acc.1 acc.2.1).1, (invStep acc.1 acc.2.1).2, acc.2.2))
    (initLifecycleState, InvPhase.ready, InvPhase.ready)

/-- The well-formed empty snapshot of app.py line 104. -/
def emptySnapshot : Snapshot String :=
  { timestamps := [], data := [], status_colors := [], quedas := []
  , oscilacoes := [] }

/-- app.py lines 82-104 (_get_current_data).  latest models LATEST_DATA
and localLatest models _local_latest: some-valued exactly when the
cached dict has a timestamps entry (the tests of lines 85 and 92);
monitorResult is some-valued when monitor_get_status_data is callable
and its synchronous call on line 100 returns a snapshot, and none when
the monitor is unavailable or the call raises (lines 98-102). -/
def get_current_data (latest localLatest monitorResult : Option (Snapshot String)) :
    Snapshot String :=
  match latest with
  | some s => s
  | none =>
      match localLatest with
      | some s => s
      | none =>
          match monitorResult with
          | some s => s
          | none => emptySnapshot

/-- C1: for a single endpoint with outcomes up,up,down,down,down,down,up
over 7 cycles from the empty initial state, the update step produces
downtime counters 0,0,5,10,15,20,0; Queda entries exactly in cycles
3,4,5,6 carrying 5,10,15,20; Oscilação entries exactly in cycles 3 and
7; and status colors green,green,yellow,red,red,red,yellow. -/
theorem c1_scenario :
    scenarioRun.map (fun r => r.2.offline_time "A") = [0, 0, 5, 10, 15, 20, 0] ∧
    scenarioRun.map (fun r => r.1.quedas) =
      [ [], [], [⟨"t3", "A", some 5, "Queda"⟩], [⟨"t4", "A", some 10, "Queda"⟩]
      , [⟨"t5", "A", some 15, "Queda"⟩], [⟨"t6", "A", some 20, "Queda"⟩], [] ] ∧
    scenarioRun.map (fun r => r.1.oscilacoes) =
      [ [], [], [⟨"t3", "A", none, "Oscilação"⟩], [], [], []
      , [⟨"t7", "A", none, "Oscilação"⟩] ] ∧
    scenarioRun.map (fun r => r.1.status_colors) =
      [ [("A", "green")], [("A", "green")], [("A", "yellow")], [("A", "red")]
      , [("A", "red")], [("A", "red")], [("A", "yellow")] ] := by
  decide

/-! ### Structural lemmas about the per-endpoint loop -/

lemma stateAt_setStateAt_self {E : Type} [DecidableEq E] (st : MonitorState E)
    (n : E) (es : EndpointState) : stateAt (setStateAt st n es) n = es := by
  simp [stateAt, setStateAt]

lemma stateAt_setStateAt_ne {E : Type} [DecidableEq E] (st : MonitorState E)
    (n : E) (es : EndpointState) (e : E) (h : e ≠ n) :
    stateAt (setStateAt st n es) e = stateAt st e := by
  simp [stateAt, setStateAt, h]

lemma stateAt_cycleStep_ne {E : Type} [DecidableEq E] (sd : E → Option Nat)
    (t : String) (acc : CycleAcc E) (n e : E) (h : e ≠ n) :
    stateAt (cycleStep sd t acc n).state e = stateAt acc.state e := by
  unfold cycleStep
  cases sd n with
  | none => rfl
  | some s => exact stateAt_setStateAt_ne acc.state n _ e h

lemma timestamps_cycleStep {E : Type} [DecidableEq E] (sd : E → Option Nat)
    (t : String) (acc : CycleAcc E) (n : E) :
    (cycleStep sd t acc n).state.timestamps = acc.state.timestamps := by
  unfold cycleStep
  cases sd n with
  | none => rfl
  | some s => rfl

lemma foldl_cycleStep_timestamps {E : Type} [DecidableEq E] (sd : E → Option Nat)
    (t : String) :
    ∀ (sites : List E) (acc : CycleAcc E),
      (sites.foldl (cycleStep sd t) acc).state.timestamps = acc.state.timestamps := by
  intro sites
  induction sites with
  | nil => intro acc; rfl
  | cons n rest ih =>
      intro acc
      rw [List.foldl_cons, ih, timestamps_cycleStep]

lemma foldl_cycleStep_stateAt_notMem {E : Type} [DecidableEq E] (sd : E → Option Nat)
    (t : String) :
    ∀ (sites : List E) (acc : CycleAcc E) (e : E), e ∉ sites →
      stateAt (sites.foldl (cycleStep sd t) acc).state e = stateAt acc.state e := by
  intro sites
  induction sites with
  | nil => intro acc e _; rfl
  | cons n rest ih =>
      intro acc e he
      have hne : e ≠ n := fun h => he (h ▸ List.mem_cons_self n rest)
      have hrest : e ∉ rest := fun h => he (List.mem_cons_of_mem n h)
      rw [List.foldl_cons, ih _ e hrest, stateAt_cycleStep_ne sd t acc n e hne]

lemma foldl_cycleStep_stateAt_none {E : Type} [DecidableEq E] (sd : E → Option Nat)
    (t : String) (e : E) (he : sd e = none) :
    ∀ (sites : List E) (acc : CycleAcc E),
      stateAt (sites.foldl (cycleStep sd t) acc).state e = stateAt acc.state e := by
  intro sites
  induction sites with
  | nil => intro acc; rfl
  | cons n rest ih =>
      intro acc
      rw [List.foldl_cons, ih]
      by_cases hn : e = n
      · subst hn
        unfold cycleStep
        rw [he]
      · exact stateAt_cycleStep_ne sd t acc n e hn

lemma foldl_cycleStep_stateAt_mem {E : Type} [DecidableEq E] (sd : E → Option Nat)
    (t : String) (e : E) (s : Nat) (hs : sd e = some s) :
    ∀ (sites : List E) (acc : CycleAcc E), sites.Nodup → e ∈ sites →
      stateAt (sites.foldl (cycleStep sd t) acc).state e
        = updateEndpointState (stateAt acc.state e) s := by
  intro sites
  induction sites with
  | nil => intro acc _ hmem; cases hmem
  | cons n rest ih =>
      intro acc hnd hmem
      have hnd2 := List.nodup_cons.mp hnd
      rw [List.foldl_cons]
      rcases List.mem_cons.mp hmem with hen | hmem2
      · subst hen
        have hstep : cycleStep sd t acc e = processEndpoint t acc e s := by
          unfold cycleStep; rw [hs]
        rw [hstep, foldl_cycleStep_stateAt_notMem sd t rest _ e hnd2.1]
        show stateAt (setStateAt acc.state e
          (updateEndpointState (stateAt acc.state e) s)) e = _
        rw [stateAt_setStateAt_self]
      · have hne : e ≠ n := by
          rintro rfl; exact hnd2.1 hmem2
        rw [ih _ hnd2.2 hmem2, stateAt_cycleStep_ne sd t acc n e hne]

lemma foldl_cycleStep_events_none {E : Type} [DecidableEq E] (sd : E → Option Nat)
    (t : String) (e : E) (he : sd e = none) :
    ∀ (sites : List E) (acc : CycleAcc E),
      (∀ ev ∈ acc.quedas, ev.nome ≠ e) → (∀ ev ∈ acc.oscilacoes, ev.nome ≠ e) →
      (∀ ev ∈ (sites.foldl (cycleStep sd t) acc).quedas, ev.nome ≠ e) ∧
      (∀ ev ∈ (sites.foldl (cycleStep sd t) acc).oscilacoes, ev.nome ≠ e) := by
  intro sites
  induction sites with
  | nil => intro acc hq ho; exact ⟨hq, ho⟩
  | cons n rest ih =>
      intro acc hq ho
      rw [List.foldl_cons]
      by_cases hn : n = e
      · subst hn
        have hstep : cycleStep sd t acc n = acc := by unfold cycleStep; rw [he]
        rw [hstep]
        exact ih acc hq ho
      · cases hsd : sd n with
        | none =>
            have hstep : cycleStep sd t acc n = acc := by unfold cycleStep; rw [hsd]
            rw [hstep]
            exact ih acc hq ho
        | some s =>
            have hstep : cycleStep sd t acc n = processEndpoint t acc n s := by
              unfold cycleStep; rw [hsd]
            rw [hstep]
            refine ih _ ?_ ?_
            · intro ev hev
              rcases List.mem_append.mp hev with h1 | h2
              · exact hq ev h1
              · rcases List.mem_ite_nil_right.mp h2 with ⟨_, h2⟩
                rw [List.mem_singleton.mp h2]
                exact hn
            · intro ev hev
              rcases List.mem_append.mp hev with h1 | h2
              · exact ho ev h1
              · rcases List.mem_ite_nil_right.mp h2 with ⟨_, h2⟩
                rw [List.mem_singleton.mp h2]
                exact hn

lemma foldl_cycleStep_events {E : Type} [DecidableEq E] (sd : E → Option Nat)
    (t : String) (st0 : MonitorState E) :
    ∀ (sites : List E) (acc : CycleAcc E), sites.Nodup →
      (∀ m ∈ sites, stateAt acc.state m = stateAt st0 m) →
      (sites.foldl (cycleStep sd t) acc).quedas
          = acc.quedas ++ sites.filterMap (quedaOf sd t st0) ∧
      (sites.foldl (cycleStep sd t) acc).oscilacoes
          = acc.oscilacoes ++ sites.filterMap (oscOf sd t st0) := by
  intro sites
  induction sites with
  | nil => intro acc _ _; simp
  | cons n rest ih =>
      intro acc hnd hst
      have hnd2 := List.nodup_cons.mp hnd
      have hstn : stateAt acc.state n = stateAt st0 n :=
        hst n (List.mem_cons_self n rest)
      rw [List.foldl_cons]
      cases hsd : sd n with
      | none =>
          have hstep : cycleStep sd t acc n = acc := by unfold cycleStep; rw [hsd]
          have hq : quedaOf sd t st0 n = none := by unfold quedaOf; rw [hsd]
          have ho : oscOf sd t st0 n = none := by unfold oscOf; rw [hsd]
          rw [hstep, List.filterMap_cons_none hq, List.filterMap_cons_none ho]
          exact ih acc hnd2.2 (fun m hm => hst m (List.mem_cons_of_mem n hm))
      | some s =>
          have hstep : cycleStep sd t acc n = processEndpoint t acc n s := by
            unfold cycleStep; rw [hsd]
          rw [hstep]
          have hst2 : ∀ m ∈ rest,
              stateAt (processEndpoint t acc n s).state m = stateAt st0 m := by
            intro m hm
            have hmn : m ≠ n := by rintro rfl; exact hnd2.1 hm
            show stateAt (setStateAt acc.state n _) m = _
            rw [stateAt_setStateAt_ne _ _ _ _ hmn]
            exact hst m (List.mem_cons_of_mem n hm)
          obtain ⟨ihq, iho⟩ := ih (processEndpoint t acc n s) hnd2.2 hst2
          constructor
          · rw [ihq]
            show (acc.quedas ++ _) ++ _ = _
            rw [List.append_assoc]
            congr 1
            rw [List.filterMap_cons]
            unfold quedaOf
            rw [hsd, hstn]
            by_cases hcond :
                5 ≤ (updateEndpointState (stateAt st0 n) s).offline_time
            · rw [if_pos hcond]
              simp [hcond]
            · rw [if_neg hcond]
              simp [hcond]
          · rw [iho]
            show (acc.oscilacoes ++ _) ++ _ = _
            rw [List.append_assoc]
            congr 1
            rw [List.filterMap_cons]
            unfold oscOf
            rw [hsd, hstn]
            by_cases hcond :
                (updateEndpointState (stateAt st0 n) s).oscillation_detected = true
            · rw [if_pos hcond]
              simp [hcond]
            · rw [if_neg hcond]
              simp [hcond]

/-! ### Rolling-buffer lemmas -/

lemma length_push {α : Type} (xs : List α) (x : α) :
    (popIfFull xs ++ [x]).length
      = if xs.length ≥ MAX_HISTORY_LEN then xs.length else xs.length + 1 := by
  unfold popIfFull
  split
  · rename_i h
    have h0 : 0 < xs.length := by
      have h1 : (0 : Nat) < MAX_HISTORY_LEN := by norm_num [MAX_HISTORY_LEN]
      omega
    simp only [List.length_append, List.length_tail, List.length_singleton]
    omega
  · simp

lemma foldl_push_eq_drop :
    ∀ (l b : List Nat), b.length ≤ MAX_HISTORY_LEN →
      l.foldl pushSample b = (b ++ l).drop ((b ++ l).length - MAX_HISTORY_LEN) := by
  intro l
  induction l with
  | nil =>
      intro b hb
      have h0 : b.length - MAX_HISTORY_LEN = 0 := by omega
      simp [h0]
  | cons x rest ih =>
      intro b hb
      rw [List.foldl_cons]
      by_cases h : b.length ≥ MAX_HISTORY_LEN
      · have hb100 : b.length = MAX_HISTORY_LEN := by omega
        cases b with
        | nil => simp [MAX_HISTORY_LEN] at hb100
        | cons hd tl =>
            have htl : tl.length = MAX_HISTORY_LEN - 1 := by
              simp only [List.length_cons] at hb100
              omega
            have hone : (1 : Nat) ≤ MAX_HISTORY_LEN := by norm_num [MAX_HISTORY_LEN]
            have hpush : pushSample (hd :: tl) x = tl ++ [x] := by
              unfold pushSample popIfFull
              rw [if_pos h, List.tail_cons]
            have hlen : (tl ++ [x]).length ≤ MAX_HISTORY_LEN := by
              simp only [List.length_append, List.length_singleton, htl]
              omega
            rw [hpush, ih (tl ++ [x]) hlen]
            rw [List.append_assoc, List.singleton_append, List.cons_append]
            have hlen1 : (tl ++ x :: rest).length - MAX_HISTORY_LEN = rest.length := by
              simp only [List.length_append, List.length_cons, htl]
              omega
            have hlen2 :
                (hd :: (tl ++ x :: rest)).length - MAX_HISTORY_LEN = rest.length + 1 := by
              simp only [List.length_cons, List.length_append, htl]
              omega
            rw [hlen1, hlen2, List.drop_succ_cons]
      · have hpush : pushSample b x = b ++ [x] := by
          unfold pushSample popIfFull
          rw [if_neg h]
        have hlen : (b ++ [x]).length ≤ MAX_HISTORY_LEN := by
          simp only [List.length_append, List.length_singleton]
          omega
        rw [hpush, ih (b ++ [x]) hlen]
        rw [List.append_assoc, List.singleton_append]

/-- C2: for every endpoint in the cycle's (duplicate-free) site list,
given that the outcome map covers every site and that the history
lengths equalled the time-index length before the cycle (with the cap
respected), the same holds after the cycle; the shared timestamp is
appended exactly once per cycle, independently of the endpoints; the
equal-length invariant holds in the initial state; and a rolling buffer
fed any sequence of inserts retains exactly the last MAX_HISTORY_LEN of
them (FIFO eviction). -/
theorem c2_history_time_invariant {E : Type} [DecidableEq E] (sites : List E)
    (sd : E → Option Nat) (t : String) (st : MonitorState E)
    (hnd : sites.Nodup)
    (htot : ∀ e ∈ sites, (sd e).isSome)
    (hlen : ∀ e ∈ sites, (st.history e).length = st.timestamps.length)
    (hcap : st.timestamps.length ≤ MAX_HISTORY_LEN) :
    (∀ e ∈ sites,
        ((get_status_data sites sd t st).2.history e).length
          = (get_status_data sites sd t st).2.timestamps.length) ∧
    (get_status_data sites sd t st).2.timestamps.length ≤ MAX_HISTORY_LEN ∧
    (∀ e ∈ sites,
        ((get_status_data sites sd t st).2.history e).length ≤ MAX_HISTORY_LEN) ∧
    (get_status_data sites sd t st).2.timestamps = popIfFull st.timestamps ++ [t] ∧
    (∀ e : E, ((initMonitorState E).history e).length
        = (initMonitorState E).timestamps.length) ∧
    (∀ inserts : List Nat,
        inserts.foldl pushSample []
          = inserts.drop (inserts.length - MAX_HISTORY_LEN)) := by
  have hts : (get_status_data sites sd t st).2.timestamps
      = popIfFull st.timestamps ++ [t] := by
    show (runUpdate sites sd t st).state.timestamps = _
    unfold runUpdate
    rw [foldl_cycleStep_timestamps]
  have hhist : ∀ e ∈ sites,
      (get_status_data sites sd t st).2.history e
        = pushSample (st.history e) ((sd e).getD 0) := by
    intro e he
    obtain ⟨s, hs⟩ := Option.isSome_iff_exists.mp (htot e he)
    have := foldl_cycleStep_stateAt_mem sd t e s hs sites
      { state := { st with timestamps := popIfFull st.timestamps ++ [t] }
      , quedas := [], oscilacoes := [] } hnd he
    have hh : (get_status_data sites sd t st).2.history e
        = (updateEndpointState (stateAt st e) s).history := by
      have hproj := congrArg EndpointState.history this
      exact hproj
    rw [hh, hs]
    rfl
  have htlen : (get_status_data sites sd t st).2.timestamps.length
      = if st.timestamps.length ≥ MAX_HISTORY_LEN then st.timestamps.length
        else st.timestamps.length + 1 := by
    rw [hts]
    exact length_push st.timestamps t
  refine ⟨?_, ?_, ?_, hts, fun _ => rfl, ?_⟩
  · intro e he
    rw [hhist e he, htlen]
    unfold pushSample
    rw [length_push, hlen e he]
  · rw [htlen]
    split <;> omega
  · intro e he
    rw [hhist e he]
    unfold pushSample
    rw [length_push, hlen e he]
    split <;> omega
  · intro inserts
    have := foldl_push_eq_drop inserts []
      (by simp)
    simpa using this

/-- C2 witness: the invariant theorem applied to a one-site
configuration with a total outcome map and the empty initial state. -/
theorem c2_history_time_invariant_witness :
    ((["A"] : List String).Nodup ∧
      (∀ e ∈ (["A"] : List String), ((fun _ => some 1 : String → Option Nat) e).isSome) ∧
      (∀ e ∈ (["A"] : List String),
        ((initMonitorState String).history e).length
          = (initMonitorState String).timestamps.length) ∧
      (initMonitorState String).timestamps.length ≤ MAX_HISTORY_LEN) ∧
    ((∀ e ∈ (["A"] : List String),
        ((get_status_data ["A"] (fun _ => some 1) "t1" (initMonitorState String)).2.history e).length
          = (get_status_data ["A"] (fun _ => some 1) "t1" (initMonitorState String)).2.timestamps.length) ∧
      (get_status_data ["A"] (fun _ => some 1) "t1" (initMonitorState String)).2.timestamps.length ≤ MAX_HISTORY_LEN ∧
      (∀ e ∈ (["A"] : List String),
        ((get_status_data ["A"] (fun _ => some 1) "t1" (initMonitorState String)).2.history e).length ≤ MAX_HISTORY_LEN) ∧
      (get_status_data ["A"] (fun _ => some 1) "t1" (initMonitorState String)).2.timestamps
        = popIfFull (initMonitorState String).timestamps ++ ["t1"] ∧
      (∀ e : String, ((initMonitorState String).history e).length
          = (initMonitorState String).timestamps.length) ∧
      (∀ inserts : List Nat,
          inserts.foldl pushSample []
            = inserts.drop (inserts.length - MAX_HISTORY_LEN))) :=
  ⟨⟨by decide, by decide, by decide, by decide⟩,
    c2_history_time_invariant ["A"] (fun _ => some 1) "t1" (initMonitorState String)
      (by decide) (by decide) (by decide) (by decide)⟩

lemma downRun_offline (k : Nat) :
    ∀ es : EndpointState, (downRun k es).offline_time
      = es.offline_time + CHECK_INTERVAL * k := by
  induction k with
  | zero => intro es; simp [downRun]
  | succ n ih =>
      intro es
      show (downRun n (updateEndpointState es 0)).offline_time = _
      rw [ih]
      show (es.offline_time + CHECK_INTERVAL) + CHECK_INTERVAL * n = _
      ring

lemma get_status_data_stateAt_mem {E : Type} [DecidableEq E] (sites : List E)
    (sd : E → Option Nat) (t : String) (st : MonitorState E) (e : E) (s : Nat)
    (hnd : sites.Nodup) (he : e ∈ sites) (hs : sd e = some s) :
    stateAt (get_status_data sites sd t st).2 e
      = updateEndpointState (stateAt st e) s := by
  show stateAt (runUpdate sites sd t st).state e = _
  unfold runUpdate
  rw [foldl_cycleStep_stateAt_mem sd t e s hs sites _ hnd he]
  rfl

/-- C3: for an endpoint with a delivered sample, the cycle leaves its
downtime counter at 0 when the sample is up (nonzero) and at the
previous value plus CHECK_INTERVAL when the sample is down (0); and
starting from a counter of 0, a run of consecutive down samples takes
the counter through the strictly increasing values CHECK_INTERVAL * i
for i = 1, 2, .... -/
theorem c3_downtime_counter {E : Type} [DecidableEq E] (sites : List E)
    (sd : E → Option Nat) (t : String) (st : MonitorState E) (e : E) (s : Nat)
    (hnd : sites.Nodup) (he : e ∈ sites) (hs : sd e = some s) :
    (get_status_data sites sd t st).2.offline_time e
      = (if s = 0 then st.offline_time e + CHECK_INTERVAL else 0) ∧
    (∀ es : EndpointState, es.offline_time = 0 →
      ∀ i : Nat, (downRun i es).offline_time = CHECK_INTERVAL * i) := by
  constructor
  · have hh := congrArg EndpointState.offline_time
      (get_status_data_stateAt_mem sites sd t st e s hnd he hs)
    exact hh
  · intro es h0 i
    rw [downRun_offline, h0, Nat.zero_add]

/-- C3 witness: one down cycle on a fresh single-endpoint state. -/
theorem c3_downtime_counter_witness :
    ((["A"] : List String).Nodup ∧ "A" ∈ (["A"] : List String) ∧
      (fun _ => some 0 : String → Option Nat) "A" = some 0) ∧
    ((get_status_data ["A"] (fun _ => some 0) "t1" (initMonitorState String)).2.offline_time "A"
        = (if 0 = 0 then (initMonitorState String).offline_time "A" + CHECK_INTERVAL else 0) ∧
      (∀ es : EndpointState, es.offline_time = 0 →
        ∀ i : Nat, (downRun i es).offline_time = CHECK_INTERVAL * i)) :=
  ⟨⟨by decide, by decide, rfl⟩,
    c3_downtime_counter ["A"] (fun _ => some 0) "t1" (initMonitorState String) "A" 0
      (by decide) (by decide) rfl⟩

/-- C4: with at least two buffered samples the status color is yellow
when the last two differ, else green when the latest is 1 and red when
it is 0; with exactly one sample it is green when the sample is 1 and
red otherwise; and the five example buffers evaluate as the spec lists
them. -/
theorem c4_status_color_rules :
    (∀ (l : List Nat) (b a : Nat),
        get_status_color (l ++ [b, a])
          = if a ≠ b then "yellow" else if a = 1 then "green" else "red") ∧
    (∀ v : Nat, get_status_color [v] = if v = 1 then "green" else "red") ∧
    get_status_color [1] = "green" ∧
    get_status_color [0] = "red" ∧
    get_status_color [1, 0] = "yellow" ∧
    get_status_color [1, 0, 0] = "red" ∧
    get_status_color [0, 1, 1] = "green" := by
  refine ⟨?_, ?_, by decide, by decide, by decide, by decide, by decide⟩
  · intro l b a
    unfold get_status_color
    have hrev : (l ++ [b, a]).reverse = a :: b :: l.reverse := by
      simp
    rw [hrev]
    rfl
  · intro v
    rfl

lemma get_status_data_quedas {E : Type} [DecidableEq E] (sites : List E)
    (sd : E → Option Nat) (t : String) (st : MonitorState E)
    (hnd : sites.Nodup) :
    (get_status_data sites sd t st).1.quedas
      = sites.filterMap (quedaOf sd t st) := by
  show (runUpdate sites sd t st).quedas = _
  unfold runUpdate
  have h := (foldl_cycleStep_events sd t st sites
    { state := { st with timestamps := popIfFull st.timestamps ++ [t] }
    , quedas := [], oscilacoes := [] } hnd (fun m _ => rfl)).1
  rw [h]
  rfl

lemma get_status_data_oscilacoes {E : Type} [DecidableEq E] (sites : List E)
    (sd : E → Option Nat) (t : String) (st : MonitorState E)
    (hnd : sites.Nodup) :
    (get_status_data sites sd t st).1.oscilacoes
      = sites.filterMap (oscOf sd t st) := by
  show (runUpdate sites sd t st).oscilacoes = _
  unfold runUpdate
  have h := (foldl_cycleStep_events sd t st sites
    { state := { st with timestamps := popIfFull st.timestamps ++ [t] }
    , quedas := [], oscilacoes := [] } hnd (fun m _ => rfl)).2
  rw [h]
  rfl

lemma quedaOf_eq_some {E : Type} (sd : E → Option Nat) (t : String)
    (st : MonitorState E) (a : E) (ev : Event E)
    (h : quedaOf sd t st a = some ev) :
    ∃ s : Nat, sd a = some s ∧
      5 ≤ (updateEndpointState (stateAt st a) s).offline_time ∧
      ev = ⟨t, a, some (updateEndpointState (stateAt st a) s).offline_time, "Queda"⟩ := by
  cases hsd : sd a with
  | none => simp [quedaOf, hsd] at h
  | some s =>
      simp only [quedaOf, hsd] at h
      by_cases hc : 5 ≤ (updateEndpointState (stateAt st a) s).offline_time
      · rw [if_pos hc] at h
        exact ⟨s, rfl, hc, ((Option.some.injEq _ _).mp h).symm⟩
      · rw [if_neg hc] at h
        exact absurd h (by simp)

/-- C5: for an endpoint with a delivered sample, a Queda entry for it
appears in the cycle's snapshot iff its post-update downtime counter is
at least 5 seconds; any Queda entry for it carries exactly the
timestamp, the endpoint and the current counter value; and if the
endpoint is still down in the following cycle the emitted value grows
by CHECK_INTERVAL, so values strictly increase during one sustained
outage. -/
theorem c5_outage_events {E : Type} [DecidableEq E] (sites : List E)
    (sd : E → Option Nat) (t : String) (st : MonitorState E) (e : E) (s : Nat)
    (hnd : sites.Nodup) (he : e ∈ sites) (hs : sd e = some s) :
    (get_status_data sites sd t st).2.offline_time e
      = (updateEndpointState (stateAt st e) s).offline_time ∧
    ((∃ ev ∈ (get_status_data sites sd t st).1.quedas, ev.nome = e) ↔
      5 ≤ (get_status_data sites sd t st).2.offline_time e) ∧
    (∀ ev ∈ (get_status_data sites sd t st).1.quedas, ev.nome = e →
      ev = ⟨t, e, some ((get_status_data sites sd t st).2.offline_time e), "Queda"⟩) ∧
    (updateEndpointState (stateAt (get_status_data sites sd t st).2 e) 0).offline_time
      = (get_status_data sites sd t st).2.offline_time e + CHECK_INTERVAL := by
  have hoff : (get_status_data sites sd t st).2.offline_time e
      = (updateEndpointState (stateAt st e) s).offline_time :=
    congrArg EndpointState.offline_time
      (get_status_data_stateAt_mem sites sd t st e s hnd he hs)
  have hqs := get_status_data_quedas sites sd t st hnd
  refine ⟨hoff, ?_, ?_, ?_⟩
  · constructor
    · rintro ⟨ev, hev, hnom⟩
      rw [hqs] at hev
      obtain ⟨a, ha, hqa⟩ := List.mem_filterMap.mp hev
      obtain ⟨s2, hs2, hge, hev2⟩ := quedaOf_eq_some sd t st a ev hqa
      have hae : a = e := by rw [hev2] at hnom; exact hnom
      subst hae
      have hss : s2 = s := by
        rw [hs] at hs2
        exact ((Option.some.injEq _ _).mp hs2).symm
      subst hss
      rw [hoff]
      exact hge
    · intro hge
      rw [hoff] at hge
      refine ⟨⟨t, e, some (updateEndpointState (stateAt st e) s).offline_time, "Queda"⟩,
        ?_, rfl⟩
      rw [hqs]
      refine List.mem_filterMap.mpr ⟨e, he, ?_⟩
      simp only [quedaOf, hs]
      rw [if_pos hge]
  · intro ev hev hnom
    rw [hqs] at hev
    obtain ⟨a, ha, hqa⟩ := List.mem_filterMap.mp hev
    obtain ⟨s2, hs2, hge, hev2⟩ := quedaOf_eq_some sd t st a ev hqa
    have hae : a = e := by rw [hev2] at hnom; exact hnom
    subst hae
    have hss : s2 = s := by
      rw [hs] at hs2
      exact ((Option.some.injEq _ _).mp hs2).symm
    subst hss
    rw [hev2, hoff]
  · show (if (0 : Nat) = 0 then
        (stateAt (get_status_data sites sd t st).2 e).offline_time + CHECK_INTERVAL
      else 0) = _
    rw [if_pos rfl]
    rfl

/-- C5 witness: a single endpoint going down from the fresh state emits
a Queda entry with value 5 in that very cycle. -/
theorem c5_outage_events_witness :
    ((["A"] : List String).Nodup ∧ "A" ∈ (["A"] : List String) ∧
      (fun _ => some 0 : String → Option Nat) "A" = some 0) ∧
    ((get_status_data ["A"] (fun _ => some 0) "t1" (initMonitorState String)).2.offline_time "A"
        = (updateEndpointState (stateAt (initMonitorState String) "A") 0).offline_time ∧
      ((∃ ev ∈ (get_status_data ["A"] (fun _ => some 0) "t1" (initMonitorState String)).1.quedas,
          ev.nome = "A") ↔
        5 ≤ (get_status_data ["A"] (fun _ => some 0) "t1" (initMonitorState String)).2.offline_time "A") ∧
      (∀ ev ∈ (get_status_data ["A"] (fun _ => some 0) "t1" (initMonitorState String)).1.quedas,
        ev.nome = "A" →
        ev = ⟨"t1", "A",
          some ((get_status_data ["A"] (fun _ => some 0) "t1" (initMonitorState String)).2.offline_time "A"),
          "Queda"⟩) ∧
      (updateEndpointState
          (stateAt (get_status_data ["A"] (fun _ => some 0) "t1" (initMonitorState String)).2 "A") 0).offline_time
        = (get_status_data ["A"] (fun _ => some 0) "t1" (initMonitorState String)).2.offline_time "A"
            + CHECK_INTERVAL) :=
  ⟨⟨by decide, by decide, rfl⟩,
    c5_outage_events ["A"] (fun _ => some 0) "t1" (initMonitorState String) "A" 0
      (by decide) (by decide) rfl⟩

/-- C6 counterexample: a configured endpoint whose outcome is missing
from the cycle's map is not treated as down — after the cycle its
buffer is still empty (no down sample [0] was appended), its downtime
counter is still 0 (not CHECK_INTERVAL = 5 as a down sample would make
it), and no entry was produced for it, even though the shared timestamp
was appended. -/
theorem c6_missing_treated_down_counterexample :
    (get_status_data ["A"] (fun _ => (none : Option Nat)) "t1"
        (initMonitorState String)).2.history "A" = [] ∧
    (get_status_data ["A"] (fun _ => (none : Option Nat)) "t1"
        (initMonitorState String)).2.offline_time "A" = 0 ∧
    (get_status_data ["A"] (fun _ => (none : Option Nat)) "t1"
        (initMonitorState String)).1.quedas = [] ∧
    (get_status_data ["A"] (fun _ => (none : Option Nat)) "t1"
        (initMonitorState String)).1.oscilacoes = [] ∧
    (get_status_data ["A"] (fun _ => (none : Option Nat)) "t1"
        (initMonitorState String)).1.timestamps = ["t1"] ∧
    ¬ ((get_status_data ["A"] (fun _ => (none : Option Nat)) "t1"
          (initMonitorState String)).2.history "A" = [0] ∧
        (get_status_data ["A"] (fun _ => (none : Option Nat)) "t1"
          (initMonitorState String)).2.offline_time "A" = CHECK_INTERVAL) := by
  decide

/-- C6 amended: an endpoint with no entry in the cycle's outcome map is
skipped entirely by the per-endpoint loop — its buffer, counter and
flag are unchanged and no Queda or Oscilação entry is produced for it —
while the shared timestamp is still appended, so its buffer falls
behind the time index. -/
theorem c6_missing_endpoint_skipped {E : Type} [DecidableEq E] (sites : List E)
    (sd : E → Option Nat) (t : String) (st : MonitorState E) (e : E)
    (he : sd e = none) :
    stateAt (get_status_data sites sd t st).2 e = stateAt st e ∧
    (∀ ev ∈ (get_status_data sites sd t st).1.quedas, ev.nome ≠ e) ∧
    (∀ ev ∈ (get_status_data sites sd t st).1.oscilacoes, ev.nome ≠ e) ∧
    (get_status_data sites sd t st).2.timestamps
      = popIfFull st.timestamps ++ [t] := by
  refine ⟨?_, ?_, ?_, ?_⟩
  · show stateAt (runUpdate sites sd t st).state e = _
    unfold runUpdate
    rw [foldl_cycleStep_stateAt_none sd t e he]
    rfl
  · show ∀ ev ∈ (runUpdate sites sd t st).quedas, ev.nome ≠ e
    unfold runUpdate
    exact (foldl_cycleStep_events_none sd t e he sites _
      (by intro ev hev; cases hev) (by intro ev hev; cases hev)).1
  · show ∀ ev ∈ (runUpdate sites sd t st).oscilacoes, ev.nome ≠ e
    unfold runUpdate
    exact (foldl_cycleStep_events_none sd t e he sites _
      (by intro ev hev; cases hev) (by intro ev hev; cases hev)).2
  · show (runUpdate sites sd t st).state.timestamps = _
    unfold runUpdate
    rw [foldl_cycleStep_timestamps]

/-- C6 amended witness: the amended theorem applied to the concrete
one-site cycle with an empty outcome map. -/
theorem c6_missing_endpoint_skipped_witness :
    ((fun _ => (none : Option Nat)) "A" = (none : Option Nat)) ∧
    (stateAt (get_status_data ["A"] (fun _ => (none : Option Nat)) "t1"
        (initMonitorState String)).2 "A" = stateAt (initMonitorState String) "A" ∧
      (∀ ev ∈ (get_status_data ["A"] (fun _ => (none : Option Nat)) "t1"
          (initMonitorState String)).1.quedas, ev.nome ≠ "A") ∧
      (∀ ev ∈ (get_status_data ["A"] (fun _ => (none : Option Nat)) "t1"
          (initMonitorState String)).1.oscilacoes, ev.nome ≠ "A") ∧
      (get_status_data ["A"] (fun _ => (none : Option Nat)) "t1"
          (initMonitorState String)).2.timestamps
        = popIfFull (initMonitorState String).timestamps ++ ["t1"]) :=
  ⟨rfl, c6_missing_endpoint_skipped ["A"] (fun _ => none) "t1"
    (initMonitorState String) "A" rfl⟩

/-- C7: a single probe never surfaces an error (check_site is a total
function whose except-branch returns an outcome), it keeps the
endpoint's name, it reports up = 1 exactly for a response with status
code 200 — the source's success test — and any transport error,
timeout, or response with a different status code yields 0; there is no
retry in the function. -/
theorem c7_check_site_total :
    (∀ (n : String) (r : ProbeResult), (check_site n r).1 = n) ∧
    (∀ (n : String) (r : ProbeResult),
      ((check_site n r).2 = 1 ↔ r = ProbeResult.response 200)) ∧
    (∀ (n : String) (c : Nat),
      (check_site n (ProbeResult.response c)).2 = if c = 200 then 1 else 0) ∧
    (∀ n : String, (check_site n ProbeResult.transportError).2 = 0) ∧
    (∀ n : String, (check_site n ProbeResult.timeout).2 = 0) ∧
    (∀ (n : String) (r : ProbeResult),
      (check_site n r).2 = 0 ∨ (check_site n r).2 = 1) := by
  refine ⟨?_, ?_, ?_, fun _ => rfl, fun _ => rfl, ?_⟩
  · intro n r
    cases r <;> rfl
  · intro n r
    cases r with
    | response c =>
        by_cases hc : c = 200
        · subst hc
          simp [check_site]
        · simp [check_site, hc]
    | transportError => simp [check_site]
    | timeout => simp [check_site]
  · intro n c
    rfl
  · intro n r
    cases r with
    | response c =>
        by_cases hc : c = 200
        · subst hc; right; rfl
        · left; simp [check_site, hc]
    | transportError => left; rfl
    | timeout => left; rfl

/-- C8: the flag test of ensure_started is not performed under a lock,
so two concurrent invocations may both observe the flag clear before
either sets it; the interleaving check-check-start-start then starts
two monitoring loop threads, although a lone (or strictly sequential
repeated) invocation starts exactly one. -/
theorem c8_concurrent_double_start :
    (runTwo [false, true, false, true]).1.monitor_threads = 2 ∧
    (runTwo [false, true, false, true]).2.1 = InvPhase.finished ∧
    (runTwo [false, true, false, true]).2.2 = InvPhase.finished ∧
    ¬ (runTwo [false, true, false, true]).1.monitor_threads = 1 ∧
    (ensure_started initLifecycleState).monitor_threads = 1 ∧
    (ensure_started (ensure_started initLifecycleState)).monitor_threads = 1 := by
  decide

/-- C9 counterexample: before any cycle has been published (both the
monitor cache and the local cache lack a timestamps entry), the
app-side read does not return the empty snapshot — with the monitor's
update function available it synchronously runs a cycle and returns
that snapshot, whose timestamp list is nonempty. -/
theorem c9_before_first_cycle_counterexample :
    get_current_data none none
        (some (get_status_data ["A"] (fun _ => some 1) "09:00:00"
          (initMonitorState String)).1)
      ≠ emptySnapshot ∧
    (get_current_data none none
        (some (get_status_data ["A"] (fun _ => some 1) "09:00:00"
          (initMonitorState String)).1)).timestamps = ["09:00:00"] := by
  decide

/-- C9 amended: the app-side read never fails and falls through its
sources in order — the published snapshot if it has a timestamps entry,
else the local cache, else the result of a synchronous update call when
the monitor is available, and the well-formed empty snapshot (all
sequences and maps empty) only when every source is unavailable. -/
theorem c9_get_current_data_fallback :
    get_current_data none none none = emptySnapshot ∧
    emptySnapshot.timestamps = [] ∧ emptySnapshot.data = [] ∧
    emptySnapshot.status_colors = [] ∧ emptySnapshot.quedas = [] ∧
    emptySnapshot.oscilacoes = [] ∧
    (∀ s : Snapshot String, get_current_data none none (some s) = s) ∧
    (∀ (s : Snapshot String) (la mo : Option (Snapshot String)),
      get_current_data (some s) la mo = s) ∧
    (∀ (s : Snapshot String) (mo : Option (Snapshot String)),
      get_current_data none (some s) mo = s) := by
  exact ⟨rfl, rfl, rfl, rfl, rfl, rfl, fun _ => rfl, fun _ _ _ => rfl, fun _ _ => rfl⟩

/-- C10: get_status_color is total on every buffer state — it always
returns one of the three colors — and on the empty buffer (which the
truthiness test of line 89 sends to the else-branch) it returns red. -/
theorem c10_status_color_total :
    (∀ data : List Nat,
      get_status_color data = "green" ∨ get_status_color data = "yellow" ∨
        get_status_color data = "red") ∧
    get_status_color [] = "red" := by
  refine ⟨?_, rfl⟩
  intro data
  unfold get_status_color
  rcases hrev : data.reverse with _ | ⟨a, _ | ⟨b, rest⟩⟩
  · right; right; rfl
  · by_cases ha : a = 1
    · left; simp [statusOfRev, ha]
    · right; right; simp [statusOfRev, ha]
  · by_cases hab : a ≠ b
    · right; left; simp [statusOfRev, hab]
    · have hab2 : a = b := not_not.mp hab
      subst hab2
      by_cases ha : a = 1
      · left; simp [statusOfRev, ha]
      · right; right; simp [statusOfRev, ha]

end PainelInovatus
